import Mathlib

/-
Verification of the semantic parser of the `gerbers` crate (src/lib.rs,
src/command.rs).  The external grammar engine (pest, grammar file
`gerber.pest`) is out of scope per the design: its output is modelled as a
tree of named syntax nodes (`Node`), which is exactly what
`Gerber::parse_pair` consumes.  Rust `f64` values are modelled as exact
rationals (`Rat`); the decimal-literal grammar of `f64::from_str` is
mirrored, without IEEE rounding and without inf/nan forms (none of the
verified properties depend on those).  Rust machine integers are modelled
as `Nat`/`Int` with the explicit range checks that `str::parse` performs.
-/

namespace Gerbers

/-- Grammar rule tags, mirroring the `Rule` enum that pest derives from
`gerber.pest`.  Only the tags inspected by `Gerber::parse_pair` are listed;
`other` stands for every remaining rule of the grammar (all of which fall
into the catch-all arm of the dispatch). -/
inductive Rule where
  | g04 | mo | fs | ad | am | dnn
  | g01 | g02 | g03 | g75
  | d01 | d02 | d03
  | lp | lm | lr | ls
  | region_statement | contour | g36 | g37
  | ab_statement | sr_statement
  | tf | ta | to | td
  | m02
  | template_circle | template_rectangle | template_obround
  | template_polygon | template_name
  | primitive_comment | primitive_circle | primitive_vector_line
  | primitive_center_line | primitive_outline | primitive_polygon
  | primitive_thermal | variable_definition
  | x_coord | y_coord | ij_coords
  | other
deriving DecidableEq

/-- The Rust code dispatches on `format!("{:?}", rule)`; this is that debug
name (the name `other` stands for arbitrary further grammar rules). -/
def ruleName : Rule → String
  | .g04 => "g04" | .mo => "mo" | .fs => "fs" | .ad => "ad" | .am => "am"
  | .dnn => "dnn"
  | .g01 => "g01" | .g02 => "g02" | .g03 => "g03" | .g75 => "g75"
  | .d01 => "d01" | .d02 => "d02" | .d03 => "d03"
  | .lp => "lp" | .lm => "lm" | .lr => "lr" | .ls => "ls"
  | .region_statement => "region_statement" | .contour => "contour"
  | .g36 => "g36" | .g37 => "g37"
  | .ab_statement => "ab_statement" | .sr_statement => "sr_statement"
  | .tf => "tf" | .ta => "ta" | .to => "to" | .td => "td"
  | .m02 => "m02"
  | .template_circle => "template_circle"
  | .template_rectangle => "template_rectangle"
  | .template_obround => "template_obround"
  | .template_polygon => "template_polygon"
  | .template_name => "template_name"
  | .primitive_comment => "primitive_comment"
  | .primitive_circle => "primitive_circle"
  | .primitive_vector_line => "primitive_vector_line"
  | .primitive_center_line => "primitive_center_line"
  | .primitive_outline => "primitive_outline"
  | .primitive_polygon => "primitive_polygon"
  | .primitive_thermal => "primitive_thermal"
  | .variable_definition => "variable_definition"
  | .x_coord => "x_coord" | .y_coord => "y_coord" | .ij_coords => "ij_coords"
  | .other => "unknown"

mutual
/-- A pest syntax node: a rule tag, the matched span text, and the inner
children (`pair.into_inner()` iterates over them in order). -/
inductive Node where
  | mk (rule : Rule) (text : String) (children : NodeList)
/-- A list of sibling syntax nodes, in source order. -/
inductive NodeList where
  | nil
  | cons (head : Node) (tail : NodeList)
end

def Node.rule : Node → Rule
  | .mk r _ _ => r

def Node.text : Node → String
  | .mk _ t _ => t

def Node.children : Node → NodeList
  | .mk _ _ c => c

def NodeList.length : NodeList → Nat
  | .nil => 0
  | .cons _ tl => tl.length + 1

def NodeList.get? : NodeList → Nat → Option Node
  | .nil, _ => none
  | .cons h _, 0 => some h
  | .cons _ tl, n + 1 => tl.get? n

def NodeList.drop : NodeList → Nat → NodeList
  | ns, 0 => ns
  | .nil, _ + 1 => .nil
  | .cons _ tl, n + 1 => tl.drop n

def NodeList.head? : NodeList → Option Node
  | .nil => none
  | .cons h _ => some h

def nlAppend : NodeList → NodeList → NodeList
  | .nil, b => b
  | .cons h tl, b => .cons h (nlAppend tl b)

/-- The span texts of a node list, in order. -/
def nodeTexts : NodeList → List String
  | .nil => []
  | .cons h tl => h.text :: nodeTexts tl

/-- Build a `NodeList` from a plain list (convenience for concrete inputs). -/
def nl (l : List Node) : NodeList := l.foldr .cons .nil

/-- Token node: only its span text matters to the semantic parser. -/
def tk (s : String) : Node := .mk .other s .nil

/- ## Numeric decoding (Rust `str::parse`) -/

def digitVal (c : Char) : Nat := c.toNat - 48

/-- A non-empty all-digit character run, as a number; `none` otherwise.
Mirrors the digit-run requirement of Rust integer parsing. -/
def digitsToNat? (l : List Char) : Option Nat :=
  if l ≠ [] ∧ l.all Char.isDigit then
    some (l.foldl (fun a c => a * 10 + digitVal c) 0)
  else none

/-- The value of a (possibly empty) digit run. -/
def digitsVal (l : List Char) : Nat :=
  l.foldl (fun a c => a * 10 + digitVal c) 0

def stripPlus (l : List Char) : List Char :=
  match l with
  | '+' :: r => r
  | _ => l

/-- Rust unsigned-integer parsing: optional leading `+`, then a non-empty
digit run, in range; everything else (including overflow) is `Err`. -/
def rustParseUnsigned? (bound : Nat) (s : String) : Option Nat :=
  match digitsToNat? (stripPlus s.data) with
  | some n => if n < bound then some n else none
  | none => none

def rustParseU8? : String → Option Nat := rustParseUnsigned? 256

def rustParseU32? : String → Option Nat := rustParseUnsigned? (2 ^ 32)

/-- Rust `i32` parsing: optional sign, non-empty digit run, range check. -/
def rustParseI32? (s : String) : Option Int :=
  let p : Bool × List Char :=
    match s.data with
    | '-' :: r => (true, r)
    | '+' :: r => (false, r)
    | l => (false, l)
  match digitsToNat? p.2 with
  | some n =>
    let v : Int := if p.1 then -(n : Int) else (n : Int)
    if -(2 ^ 31) ≤ v ∧ v < 2 ^ 31 then some v else none
  | none => none

/-- Split a character list at the first character satisfying `p`:
returns the part before it and, when found, the part after it. -/
def splitOnChar : List Char → (Char → Bool) → List Char × Option (List Char)
  | [], _ => ([], none)
  | c :: rest, p =>
    if p c then ([], some rest)
    else
      let q := splitOnChar rest p
      (c :: q.1, q.2)

/-- The mantissa of a decimal float literal — `digits`, `digits.digits?`
or `.digits` — as an unnormalized numerator/denominator pair. -/
def parseMantissaParts? (l : List Char) : Option (Nat × Nat) :=
  let q := splitOnChar l (· == '.')
  match q.2 with
  | none => (digitsToNat? q.1).map (fun n => (n, 1))
  | some fp =>
    if (q.1 ≠ [] ∨ fp ≠ []) ∧ q.1.all Char.isDigit ∧ fp.all Char.isDigit then
      some (digitsVal q.1 * 10 ^ fp.length + digitsVal fp, 10 ^ fp.length)
    else none

/-- Rust `f64::from_str` on the decimal grammar (optional sign, mantissa,
optional `e`/`E` exponent), with the value kept as an exact rational,
assembled with `mkRat` from integer arithmetic. -/
def parseRat? (s : String) : Option Rat :=
  let p : Bool × List Char :=
    match s.data with
    | '-' :: r => (true, r)
    | '+' :: r => (false, r)
    | l => (false, l)
  let q := splitOnChar p.2 (fun c => c == 'e' || c == 'E')
  match parseMantissaParts? q.1 with
  | none => none
  | some mant =>
    let scaled : Option (Nat × Nat) :=
      match q.2 with
      | none => some mant
      | some el =>
        let ep : Bool × List Char :=
          match el with
          | '-' :: r => (true, r)
          | '+' :: r => (false, r)
          | l => (false, l)
        match digitsToNat? ep.2 with
        | some e =>
          some (if ep.1 then (mant.1, mant.2 * 10 ^ e) else (mant.1 * 10 ^ e, mant.2))
        | none => none
    match scaled with
    | none => none
    | some m => some (mkRat (if p.1 then -(m.1 : Int) else (m.1 : Int)) m.2)

/-- `str::trim_start_matches('D')`: drop every leading `D`. -/
def trimLeadingD (s : String) : String :=
  String.mk (s.data.dropWhile (· == 'D'))

/-- `str::to_uppercase`, character by character (the tokens compared
against — `MM`, `IN`, `D`, `C`, `N`, `X`, `Y`, `XY` — are ASCII). -/
def toUpperStr (s : String) : String :=
  String.mk (s.data.map Char.toUpper)

/- ## The command model (src/command.rs) -/

/-- Measurement unit set by the MO command (`command::Unit`). -/
inductive Unit where
  | Millimeters
  | Inches
deriving DecidableEq

/-- Coordinate format set by the FS command.  The four fields are `u8` in
the source; the decoder's range check keeps the values below 256. -/
structure FormatSpecification where
  x_integer_digits : Nat
  x_decimal_digits : Nat
  y_integer_digits : Nat
  y_decimal_digits : Nat
deriving DecidableEq

/-- Aperture template (`command::ApertureTemplate`).  `MacroTpl` is the
`Macro` variant of the source (name + ordered numeric parameters). -/
inductive ApertureTemplate where
  | Circle (diameter : Rat) (hole : Option Rat)
  | Rectangle (x : Rat) (y : Rat) (hole : Option Rat)
  | Obround (x : Rat) (y : Rat) (hole : Option Rat)
  | Polygon (outerDiameter : Rat) (vertices : Nat) (rotation : Option Rat)
      (hole : Option Rat)
  | MacroTpl (name : String) (parameters : List Rat)
deriving DecidableEq

/-- Aperture definition created by the AD command. -/
structure ApertureDefinition where
  code : Nat
  template : ApertureTemplate
deriving DecidableEq

/-- Aperture-macro primitives (`command::AMPrimitive`). -/
inductive AMPrimitive where
  | Comment (text : String)
  | Circle (exposure : Bool) (diameter : Rat) (centerX : Rat) (centerY : Rat)
      (rotation : Option Rat)
  | VectorLine (exposure : Bool) (width : Rat) (startX : Rat) (startY : Rat)
      (endX : Rat) (endY : Rat) (rotation : Rat)
  | CenterLine (exposure : Bool) (width : Rat) (height : Rat) (centerX : Rat)
      (centerY : Rat) (rotation : Rat)
  | Outline (exposure : Bool) (points : List (Rat × Rat)) (rotation : Rat)
  | Polygon (exposure : Bool) (vertices : Nat) (centerX : Rat) (centerY : Rat)
      (diameter : Rat) (rotation : Rat)
  | Thermal (centerX : Rat) (centerY : Rat) (outerDiameter : Rat)
      (innerDiameter : Rat) (gap : Rat) (rotation : Rat)
  | VariableDefinition (number : Nat) (expression : String)
deriving DecidableEq

/-- D01 (plot) parameters: every axis independently optional (`i32`). -/
structure D01Operation where
  x : Option Int
  y : Option Int
  i : Option Int
  j : Option Int
deriving DecidableEq

/-- D02 (move) parameters. -/
structure D02Operation where
  x : Option Int
  y : Option Int
deriving DecidableEq

/-- D03 (flash) parameters. -/
structure D03Operation where
  x : Option Int
  y : Option Int
deriving DecidableEq

/-- Polarity set by the LP command. -/
inductive Polarity where
  | Dark
  | Clear
deriving DecidableEq

/-- Mirroring set by the LM command. -/
inductive Mirroring where
  | None
  | X
  | Y
  | XY
deriving DecidableEq

/-- Step-and-repeat parameters (recognized but never produced:
`Rule::sr_statement` is a no-op in the dispatch). -/
structure StepAndRepeat where
  x_repeats : Nat
  y_repeats : Nat
  x_step : Rat
  y_step : Rat
deriving DecidableEq

/-- A parsed Gerber command (`command::Command`). -/
inductive Command where
  | G04 (comment : String)
  | MO (unit : Unit)
  | FS (format : FormatSpecification)
  | AD (definition : ApertureDefinition)
  | AM (name : String) (primitives : List AMPrimitive)
  | Dnn (code : Nat)
  | G01
  | G02
  | G03
  | G75
  | D01 (op : D01Operation)
  | D02 (op : D02Operation)
  | D03 (op : D03Operation)
  | LP (polarity : Polarity)
  | LM (mirroring : Mirroring)
  | LR (angle : Rat)
  | LS (factor : Rat)
  | G36
  | G37
  | AB (code : Option Nat)
  | SR (params : Option StepAndRepeat)
  | TF (name : String) (values : List String)
  | TA (name : String) (values : List String)
  | TO (name : String) (values : List String)
  | TD (name : Option String)
  | M02
deriving DecidableEq

/-- The library error type (`error::GerberError`); `IoError` carries the
underlying I/O message. -/
inductive GerberError where
  | IoError (msg : String)
  | ParseError (line : Nat) (message : String)
  | SemanticError (msg : String)
deriving DecidableEq

/- ## Defaulting numeric helpers (src/lib.rs lines 695-709)

These are the free functions used only inside the aperture-macro body
decoder; on a missing argument or an unparsable numeral they substitute a
default instead of failing. -/

/-- `parse_bool`: missing or unparsable argument defaults to `0`,
then compares against zero. -/
def parse_bool (opt : Option Node) : Bool :=
  match opt with
  | none => false
  | some p => ((rustParseI32? p.text).getD 0) != 0

/-- `parse_f64_value`: unparsable text defaults to `0.0`. -/
def parse_f64_value (p : Node) : Rat :=
  (parseRat? p.text).getD 0

/-- `parse_f64`: missing argument defaults to `0.0`. -/
def parse_f64 (opt : Option Node) : Rat :=
  match opt with
  | none => 0
  | some p => parse_f64_value p

/-- `parse_u32`: missing or unparsable argument defaults to `0`. -/
def parse_u32 (opt : Option Node) : Nat :=
  match opt with
  | none => 0
  | some p => (rustParseU32? p.text).getD 0

/- ## Per-command decoders (the match arms of `Gerber::parse_pair`)

Each decoder takes the inner children of the command node and produces
either the single command that the arm pushes, or the error it returns.
The `Rule::region_statement` arm (which pushes more than one command and
recurses) is handled directly inside `parsePair` below. -/

abbrev DecodeResult := Except GerberError Command

/-- `Rule::g04`: exactly one text argument. -/
def g04Decode (ch : NodeList) : DecodeResult :=
  match ch with
  | .nil => .error (.SemanticError "No comment was detected for G04.")
  | .cons c .nil => .ok (.G04 c.text)
  | .cons _ (.cons _ _) =>
    .error (.SemanticError "Unexpected additional arguments for G04 command.")

/-- `Rule::mo`: one token, case-insensitive `MM`/`IN`; the unit is decoded
before the extra-argument check, as in the source. -/
def moDecode (ch : NodeList) : DecodeResult :=
  match ch with
  | .nil => .error (.SemanticError "No unit was specified for MO command.")
  | .cons u rest =>
    let s := toUpperStr u.text
    if s = "MM" then
      match rest with
      | .nil => .ok (.MO .Millimeters)
      | .cons _ _ =>
        .error (.SemanticError "Unexpected additional arguments for MO command.")
    else if s = "IN" then
      match rest with
      | .nil => .ok (.MO .Inches)
      | .cons _ _ =>
        .error (.SemanticError "Unexpected additional arguments for MO command.")
    else .error (.SemanticError ("Unrecognized unit: " ++ u.text))

/-- `Rule::fs`: four mandatory `u8` tokens in order, then nothing. -/
def fsDecode (ch : NodeList) : DecodeResult :=
  match ch with
  | .nil => .error (.SemanticError "Missing X integer digits in FS command.")
  | .cons a restA =>
    match rustParseU8? a.text with
    | none =>
      .error (.SemanticError "X integer digits could not be parsed as a number.")
    | some xi =>
      match restA with
      | .nil => .error (.SemanticError "Missing X decimal digits in FS command.")
      | .cons b restB =>
        match rustParseU8? b.text with
        | none =>
          .error (.SemanticError "X decimal digits could not be parsed as a number.")
        | some xd =>
          match restB with
          | .nil =>
            .error (.SemanticError "Missing Y integer digits in FS command.")
          | .cons c restC =>
            match rustParseU8? c.text with
            | none =>
              .error (.SemanticError "Y integer digits could not be parsed as a number.")
            | some yi =>
              match restC with
              | .nil =>
                .error (.SemanticError "Missing Y decimal digits in FS command.")
              | .cons d restD =>
                match rustParseU8? d.text with
                | none =>
                  .error (.SemanticError "Y decimal digits could not be parsed as a number.")
                | some yd =>
                  match restD with
                  | .nil => .ok (.FS ⟨xi, xd, yi, yd⟩)
                  | .cons _ _ =>
                    .error (.SemanticError "Unexpected additional arguments for FS command.")

/-- The `template_circle` body: optional diameter (default `0.0`),
optional hole; a present but unparsable numeral is an error. -/
def circleTemplateDecode (ch : NodeList) : Except GerberError ApertureTemplate :=
  match ch with
  | .nil => .ok (.Circle 0 none)
  | .cons d rest =>
    match parseRat? d.text with
    | none =>
      .error (.SemanticError "Circle diameter could not be parsed as a number.")
    | some dv =>
      match rest with
      | .nil => .ok (.Circle dv none)
      | .cons h _ =>
        match parseRat? h.text with
        | none =>
          .error (.SemanticError "Circle hole diameter could not be parsed as a number.")
        | some hv => .ok (.Circle dv (some hv))

/-- The `template_rectangle` / `template_obround` bodies share one decoding
shape (and, in the source, the same copy-pasted error strings). -/
def rectLikeDecode (mk : Rat → Rat → Option Rat → ApertureTemplate)
    (ch : NodeList) : Except GerberError ApertureTemplate :=
  match ch with
  | .nil => .ok (mk 0 0 none)
  | .cons xN rest =>
    match parseRat? xN.text with
    | none => .error (.SemanticError "Rectangle x could not be parsed.")
    | some xv =>
      match rest with
      | .nil => .ok (mk xv 0 none)
      | .cons yN rest2 =>
        match parseRat? yN.text with
        | none => .error (.SemanticError "Rectangle y could not be parsed.")
        | some yv =>
          match rest2 with
          | .nil => .ok (mk xv yv none)
          | .cons hN _ =>
            match parseRat? hN.text with
            | none => .error (.SemanticError "Rectangle y could not be parsed.")
            | some hv => .ok (mk xv yv (some hv))

/-- The `template_polygon` body: outer diameter, vertex count, optional
rotation, optional hole (error strings copy-pasted in the source). -/
def polygonTemplateDecode (ch : NodeList) : Except GerberError ApertureTemplate :=
  match ch with
  | .nil => .ok (.Polygon 0 0 none none)
  | .cons oN rest =>
    match parseRat? oN.text with
    | none => .error (.SemanticError "Rectangle x could not be parsed.")
    | some ov =>
      match rest with
      | .nil => .ok (.Polygon ov 0 none none)
      | .cons vN rest2 =>
        match rustParseU32? vN.text with
        | none => .error (.SemanticError "Rectangle y could not be parsed.")
        | some vv =>
          match rest2 with
          | .nil => .ok (.Polygon ov vv none none)
          | .cons rN rest3 =>
            match parseRat? rN.text with
            | none => .error (.SemanticError "Rectangle y could not be parsed.")
            | some rv =>
              match rest3 with
              | .nil => .ok (.Polygon ov vv (some rv) none)
              | .cons hN _ =>
                match parseRat? hN.text with
                | none => .error (.SemanticError "Rectangle y could not be parsed.")
                | some hv => .ok (.Polygon ov vv (some rv) (some hv))

/-- The `template_name` body: macro name plus ordered numeric parameters. -/
def nameTemplateParams (ch : NodeList) : Except GerberError (List Rat) :=
  match ch with
  | .nil => .ok []
  | .cons pN rest =>
    match parseRat? pN.text with
    | none => .error (.SemanticError "Rectangle y could not be parsed.")
    | some pv =>
      match nameTemplateParams rest with
      | .error e => .error e
      | .ok ps => .ok (pv :: ps)

def nameTemplateDecode (ch : NodeList) : Except GerberError ApertureTemplate :=
  match ch with
  | .nil => .ok (.MacroTpl "" [])
  | .cons nN rest =>
    match nameTemplateParams rest with
    | .error e => .error e
    | .ok ps => .ok (.MacroTpl nN.text ps)

/-- `Rule::ad`: the `D`-code token, then a template node dispatched on its
rule tag; an unrecognized template tag is an error naming the tag. -/
def adDecode (ch : NodeList) : DecodeResult :=
  match ch with
  | .nil => .error (.SemanticError "Missing aperture code in AD command.")
  | .cons apN rest =>
    let apStr := apN.text
    match rustParseU32? (trimLeadingD apStr) with
    | none =>
      .error (.SemanticError
        ("Aperture code \x27" ++ apStr ++ "\x27 could not be parsed as an integer."))
    | some code =>
      match rest with
      | .nil => .error (.SemanticError "Missing aperture template in AD command.")
      | .cons tmpl _ =>
        let body : Except GerberError ApertureTemplate :=
          match tmpl.rule with
          | .template_circle => circleTemplateDecode tmpl.children
          | .template_rectangle => rectLikeDecode .Rectangle tmpl.children
          | .template_obround => rectLikeDecode .Obround tmpl.children
          | .template_polygon => polygonTemplateDecode tmpl.children
          | .template_name => nameTemplateDecode tmpl.children
          | r =>
            .error (.SemanticError ("Unsupported aperture template: " ++ ruleName r))
        match body with
        | .error e => .error e
        | .ok t => .ok (.AD ⟨code, t⟩)

/-- The streaming (x,y) loop of the `primitive_outline` body.  The source
consumes two tokens per iteration and then breaks — discarding them — as
soon as at most one token (taken for the trailing rotation) remains. -/
def outlineLoop (ns : NodeList) (pts : List (Rat × Rat)) :
    List (Rat × Rat) × NodeList :=
  match ns with
  | .cons xN (.cons yN rest2) =>
    if rest2.length ≤ 1 then (pts, rest2)
    else outlineLoop rest2 (pts ++ [(parse_f64_value xN, parse_f64_value yN)])
  | _ => (pts, .nil)

/-- Decode one aperture-macro body node; unrecognized kinds yield `none`
and are skipped (tolerant), mirroring the `if`/`else if` chain. -/
def primDecode (p : Node) : Option AMPrimitive :=
  let g := p.children.get?
  match p.rule with
  | .primitive_comment =>
    match p.children with
    | .cons c _ => some (.Comment c.text)
    | .nil => none
  | .primitive_circle =>
    some (.Circle (parse_bool (g 0)) (parse_f64 (g 1)) (parse_f64 (g 2))
      (parse_f64 (g 3)) ((g 4).map parse_f64_value))
  | .primitive_vector_line =>
    some (.VectorLine (parse_bool (g 0)) (parse_f64 (g 1)) (parse_f64 (g 2))
      (parse_f64 (g 3)) (parse_f64 (g 4)) (parse_f64 (g 5)) (parse_f64 (g 6)))
  | .primitive_center_line =>
    some (.CenterLine (parse_bool (g 0)) (parse_f64 (g 1)) (parse_f64 (g 2))
      (parse_f64 (g 3)) (parse_f64 (g 4)) (parse_f64 (g 5)))
  | .primitive_outline =>
    let exposure := parse_bool (g 0)
    let x := parse_f64 (g 1)
    let y := parse_f64 (g 2)
    let q := outlineLoop (p.children.drop 3) [(x, y)]
    some (.Outline exposure q.1 (parse_f64 q.2.head?))
  | .primitive_polygon =>
    some (.Polygon (parse_bool (g 0)) (parse_u32 (g 1)) (parse_f64 (g 2))
      (parse_f64 (g 3)) (parse_f64 (g 4)) (parse_f64 (g 5)))
  | .primitive_thermal =>
    some (.Thermal (parse_f64 (g 0)) (parse_f64 (g 1)) (parse_f64 (g 2))
      (parse_f64 (g 3)) (parse_f64 (g 4)) (parse_f64 (g 5)))
  | .variable_definition =>
    some (.VariableDefinition (parse_u32 (g 0))
      (match g 1 with
       | some e => e.text
       | none => ""))
  | _ => none

/-- The ordered primitives of an aperture-macro body. -/
def amBody (ns : NodeList) : List AMPrimitive :=
  match ns with
  | .nil => []
  | .cons p rest =>
    match primDecode p with
    | some x => x :: amBody rest
    | none => amBody rest

/-- `Rule::am`: the macro name (default empty), then the primitive body.
This arm never fails: its numeric decoding substitutes defaults. -/
def amDecode (ch : NodeList) : Command :=
  match ch with
  | .nil => .AM "" []
  | .cons nameN rest => .AM nameN.text (amBody rest)

/-- `Rule::dnn`: `D` + digits as the selected aperture code. -/
def dnnDecode (ch : NodeList) : DecodeResult :=
  match ch with
  | .nil => .error (.SemanticError "Missing aperture code in Dnn command.")
  | .cons apN _ =>
    let apStr := apN.text
    match rustParseU32? (trimLeadingD apStr) with
    | none =>
      .error (.SemanticError
        ("Aperture code \x27" ++ apStr ++ "\x27 could not be parsed as an integer."))
    | some code => .ok (.Dnn code)

/-- The argument loop of `Rule::d01`: childless argument nodes are
skipped; `x_coord`/`y_coord`/`ij_coords` update the operation; an
`ij_coords` node without a second child is the missing-J error.  (The
error strings for `i` and `j` say "Y coordinate" and reuse the `i` text:
copy-paste slips kept from the source.) -/
def d01Loop (ns : NodeList) (op : D01Operation) :
    Except GerberError D01Operation :=
  match ns with
  | .nil => .ok op
  | .cons np rest =>
    match np.children with
    | .nil => d01Loop rest op
    | .cons coord jrest =>
      let coordStr := coord.text
      match np.rule with
      | .x_coord =>
        match rustParseI32? coordStr with
        | none =>
          .error (.SemanticError
            ("X coordinate \x27" ++ coordStr ++ "\x27 could not be parsed as a number."))
        | some v => d01Loop rest { op with x := some v }
      | .y_coord =>
        match rustParseI32? coordStr with
        | none =>
          .error (.SemanticError
            ("Y coordinate \x27" ++ coordStr ++ "\x27 could not be parsed as a number."))
        | some v => d01Loop rest { op with y := some v }
      | .ij_coords =>
        match rustParseI32? coordStr with
        | none =>
          .error (.SemanticError
            ("Y coordinate \x27" ++ coordStr ++ "\x27 could not be parsed as a number."))
        | some vi =>
          match jrest with
          | .nil => .error (.SemanticError "Missing J parameter.")
          | .cons jN _ =>
            match rustParseI32? jN.text with
            | none =>
              .error (.SemanticError
                ("Y coordinate \x27" ++ coordStr ++ "\x27 could not be parsed as a number."))
            | some vj => d01Loop rest { op with i := some vi, j := some vj }
      | _ => d01Loop rest op

def d01Decode (ch : NodeList) : DecodeResult :=
  match d01Loop ch ⟨none, none, none, none⟩ with
  | .error e => .error e
  | .ok op => .ok (.D01 op)

/-- The argument loop of `Rule::d02`/`Rule::d03`: only `x_coord` and
`y_coord` are recognized; everything else is skipped. -/
def xyLoop (ns : NodeList) (op : D02Operation) :
    Except GerberError D02Operation :=
  match ns with
  | .nil => .ok op
  | .cons np rest =>
    match np.children with
    | .nil => xyLoop rest op
    | .cons coord _ =>
      let coordStr := coord.text
      match np.rule with
      | .x_coord =>
        match rustParseI32? coordStr with
        | none =>
          .error (.SemanticError
            ("X coordinate \x27" ++ coordStr ++ "\x27 could not be parsed as a number."))
        | some v => xyLoop rest { op with x := some v }
      | .y_coord =>
        match rustParseI32? coordStr with
        | none =>
          .error (.SemanticError
            ("Y coordinate \x27" ++ coordStr ++ "\x27 could not be parsed as a number."))
        | some v => xyLoop rest { op with y := some v }
      | _ => xyLoop rest op

def d02Decode (ch : NodeList) : DecodeResult :=
  match xyLoop ch ⟨none, none⟩ with
  | .error e => .error e
  | .ok op => .ok (.D02 op)

def d03Decode (ch : NodeList) : DecodeResult :=
  match xyLoop ch ⟨none, none⟩ with
  | .error e => .error e
  | .ok op => .ok (.D03 ⟨op.x, op.y⟩)

/-- `Rule::lp`: one token, case-insensitive `D`/`C`; no extra-argument
check. -/
def lpDecode (ch : NodeList) : DecodeResult :=
  match ch with
  | .nil => .error (.SemanticError "Missing polarity in LP command.")
  | .cons pN _ =>
    let s := toUpperStr pN.text
    if s = "D" then .ok (.LP .Dark)
    else if s = "C" then .ok (.LP .Clear)
    else .error (.SemanticError ("Unrecognized polarity: " ++ pN.text))

/-- `Rule::lm`: one token, `N`/`X`/`Y`/`XY` (upper-cased first). -/
def lmDecode (ch : NodeList) : DecodeResult :=
  match ch with
  | .nil => .error (.SemanticError "Missing mirroring parameter in LM command.")
  | .cons mN _ =>
    let s := toUpperStr mN.text
    if s = "N" then .ok (.LM .None)
    else if s = "X" then .ok (.LM .X)
    else if s = "Y" then .ok (.LM .Y)
    else if s = "XY" then .ok (.LM .XY)
    else .error (.SemanticError ("Unrecognized mirroring parameter: " ++ mN.text))

/-- `Rule::lr`: one numeric token. -/
def lrDecode (ch : NodeList) : DecodeResult :=
  match ch with
  | .nil => .error (.SemanticError "Missing rotation angle in LR command.")
  | .cons rN _ =>
    match parseRat? rN.text with
    | none =>
      .error (.SemanticError
        ("Rotation angle \x27" ++ rN.text ++ "\x27 could not be parsed as a number."))
    | some v => .ok (.LR v)

/-- `Rule::ls`: one numeric token. -/
def lsDecode (ch : NodeList) : DecodeResult :=
  match ch with
  | .nil => .error (.SemanticError "Missing scaling factor in LS command.")
  | .cons sN _ =>
    match parseRat? sN.text with
    | none =>
      .error (.SemanticError
        ("Scaling factor \x27" ++ sN.text ++ "\x27 could not be parsed as a number."))
    | some v => .ok (.LS v)

/-- `Rule::tf`: an attribute name token, then the value tokens in order. -/
def tfDecode (ch : NodeList) : DecodeResult :=
  match ch with
  | .nil => .error (.SemanticError "Missing attribute name in TF command.")
  | .cons nameN rest => .ok (.TF nameN.text (nodeTexts rest))

/- ## The dispatch (`Gerber::parse_pair`)

The Rust function takes `&mut Vec<Command>` and returns `Result<(),
GerberError>`; that state is passed explicitly: the result is the
(possibly failed) outcome together with the final contents of the vector.
Commands already pushed before a failure stay in the vector, exactly as
with `&mut` in the source. -/

abbrev ParseState := Option GerberError × List Command

/-- Finish a non-region arm: push the decoded command, or return the
error leaving the vector untouched. -/
def pushResult (res : DecodeResult) (cs : List Command) : ParseState :=
  match res with
  | .error e => (some e, cs)
  | .ok c => (none, cs ++ [c])

mutual
/-- `Gerber::parse_pair`: dispatch one syntax node, appending the decoded
command(s) to the vector. -/
def parsePair (p : Node) (cs : List Command) : ParseState :=
  match p with
  | .mk r _ ch =>
    match r with
    | .g04 => pushResult (g04Decode ch) cs
    | .mo => pushResult (moDecode ch) cs
    | .fs => pushResult (fsDecode ch) cs
    | .ad => pushResult (adDecode ch) cs
    | .am => (none, cs ++ [amDecode ch])
    | .dnn => pushResult (dnnDecode ch) cs
    | .g01 => (none, cs ++ [.G01])
    | .g02 => (none, cs ++ [.G02])
    | .g03 => (none, cs ++ [.G03])
    | .g75 => (none, cs ++ [.G75])
    | .d01 => pushResult (d01Decode ch) cs
    | .d02 => pushResult (d02Decode ch) cs
    | .d03 => pushResult (d03Decode ch) cs
    | .lp => pushResult (lpDecode ch) cs
    | .lm => pushResult (lmDecode ch) cs
    | .lr => pushResult (lrDecode ch) cs
    | .ls => pushResult (lsDecode ch) cs
    | .region_statement =>
      -- G36 is pushed before the children are examined, as in the source.
      let cs1 := cs ++ [.G36]
      match ch with
      | .nil => (some (.SemanticError "Missing command."), cs1)
      | .cons _ .nil => (some (.SemanticError "Expected contour"), cs1)
      | .cons _ (.cons c1 rest) =>
        match regionLoop (.cons c1 rest) cs1 with
        | (some e, cs2) => (some e, cs2)
        | (none, cs2) => (none, cs2 ++ [.G37])
    | .ab_statement => (none, cs)
    | .sr_statement => (none, cs)
    | .tf => pushResult (tfDecode ch) cs
    | .ta => (none, cs)
    | .to => (none, cs)
    | .td => (none, cs)
    | .m02 => (none, cs ++ [.M02])
    | _ => (none, cs)

/-- The `while contour_pair.as_rule() == Rule::contour` loop of the
region arm: each contour body is dispatched node by node; the loop stops
at the first non-contour node (the closing `G37` token) or at the end of
the children. -/
def regionLoop (ns : NodeList) (cs : List Command) : ParseState :=
  match ns with
  | .nil => (none, cs)
  | .cons (.mk .contour _ cch) rest =>
    match parseList cch cs with
    | (some e, cs2) => (some e, cs2)
    | (none, cs2) =>
      match rest with
      | .nil => (none, cs2)
      | .cons _ _ => regionLoop rest cs2
  | .cons _ _ => (none, cs)

/-- Dispatch a list of sibling nodes in order, stopping at the first
failure (the `?` in the loops of `Gerber::new` and of the region arm). -/
def parseList (ns : NodeList) (cs : List Command) : ParseState :=
  match ns with
  | .nil => (none, cs)
  | .cons n rest =>
    match parsePair n cs with
    | (some e, cs2) => (some e, cs2)
    | (none, cs2) => parseList rest cs2
end

/-- `Gerber::new`, downstream of file reading and the grammar engine.
Modelled from the spec: the grammar engine (gerber.pest, external per the
design) turns source text into at most one root node; `none` models the
case in which it produces no root — per the spec this is what an empty
input yields — which the source answers with the "Empty Gerber file."
error.  On success the root's children are dispatched in order and the
complete vector is returned; on failure only the error is returned. -/
def gerberNew (root? : Option Node) : Except GerberError (List Command) :=
  match root? with
  | none => .error (.SemanticError "Empty Gerber file.")
  | some root =>
    match parseList root.children [] with
    | (some e, _) => .error e
    | (none, cs) => .ok cs

/- ## Frame lemmas: the dispatch only appends to the vector -/

theorem pushResult_frame (res : DecodeResult) (cs : List Command) :
    pushResult res cs = ((pushResult res []).1, cs ++ (pushResult res []).2) := by
  cases res <;> simp [pushResult]

/-- Mutual frame property: every entry point of the dispatch leaves the
incoming vector as an unchanged prefix and appends a suffix that does not
depend on the incoming vector (proved for all three mutually recursive
functions at once, by strong induction on node size). -/
theorem frame_all (n : Nat) :
    (∀ p : Node, sizeOf p ≤ n → ∀ cs,
      parsePair p cs = ((parsePair p []).1, cs ++ (parsePair p []).2))
    ∧ (∀ ns : NodeList, sizeOf ns ≤ n → ∀ cs,
      regionLoop ns cs = ((regionLoop ns []).1, cs ++ (regionLoop ns []).2))
    ∧ (∀ ns : NodeList, sizeOf ns ≤ n → ∀ cs,
      parseList ns cs = ((parseList ns []).1, cs ++ (parseList ns []).2)) := by
  induction n using Nat.strong_induction_on with
  | _ n ih =>
    refine ⟨?_, ?_, ?_⟩
    · intro p hp cs
      obtain ⟨r, t, ch⟩ := p
      cases r
      case region_statement =>
        cases ch with
        | nil => simp [parsePair]
        | cons c0 ch1 =>
          cases ch1 with
          | nil => simp [parsePair]
          | cons c1 rest =>
            have hlt : sizeOf (NodeList.cons c1 rest) < n := by
              simp only [Node.mk.sizeOf_spec, NodeList.cons.sizeOf_spec] at hp ⊢
              omega
            have hr := (ih _ hlt).2.1 (NodeList.cons c1 rest) le_rfl
            simp only [parsePair, List.nil_append]
            rw [hr (cs ++ [Command.G36]), hr [Command.G36]]
            cases hcase : (regionLoop (NodeList.cons c1 rest) []).1 <;> simp
      all_goals
        simp only [parsePair]
      all_goals
        first
          | exact pushResult_frame _ cs
          | simp
    · intro ns hns cs
      cases ns with
      | nil => simp [regionLoop]
      | cons cur rest =>
        obtain ⟨cr, ct, cch⟩ := cur
        have hc : sizeOf cch < n := by
          simp only [Node.mk.sizeOf_spec, NodeList.cons.sizeOf_spec] at hns ⊢
          omega
        have hrest : sizeOf rest < n := by
          simp only [Node.mk.sizeOf_spec, NodeList.cons.sizeOf_spec] at hns ⊢
          omega
        have hcl := (ih _ hc).2.2 cch le_rfl
        cases cr
        case contour =>
          simp only [regionLoop]
          rw [hcl cs, hcl []]
          simp only [List.nil_append]
          cases hcase : (parseList cch []).1 with
          | some e => simp
          | none =>
            cases rest with
            | nil => simp
            | cons rh rt =>
              have hrl := (ih _ hrest).2.1 (NodeList.cons rh rt) le_rfl
              simp only []
              rw [hrl (cs ++ (parseList cch []).2), hrl ((parseList cch []).2)]
              simp
        all_goals simp [regionLoop]
    · intro ns hns cs
      cases ns with
      | nil => simp [parseList]
      | cons np rest =>
        have hn : sizeOf np < n := by
          simp only [NodeList.cons.sizeOf_spec] at hns ⊢
          omega
        have hrest : sizeOf rest < n := by
          simp only [NodeList.cons.sizeOf_spec] at hns ⊢
          omega
        have hpf := (ih _ hn).1 np le_rfl
        have hlf := (ih _ hrest).2.2 rest le_rfl
        simp only [parseList]
        rw [hpf cs, hpf []]
        simp only [List.nil_append]
        cases hcase : (parsePair np []).1 with
        | some e => simp
        | none =>
          dsimp only
          rw [hlf (cs ++ (parsePair np []).2), hlf ((parsePair np []).2)]
          simp

/-- `parse_pair` only appends: the previous vector contents are an
unchanged prefix, and the appended suffix is independent of them. -/
theorem parsePair_frame (p : Node) (cs : List Command) :
    parsePair p cs = ((parsePair p []).1, cs ++ (parsePair p []).2) :=
  (frame_all (sizeOf p)).1 p le_rfl cs

theorem regionLoop_frame (ns : NodeList) (cs : List Command) :
    regionLoop ns cs = ((regionLoop ns []).1, cs ++ (regionLoop ns []).2) :=
  (frame_all (sizeOf ns)).2.1 ns le_rfl cs

theorem parseList_frame (ns : NodeList) (cs : List Command) :
    parseList ns cs = ((parseList ns []).1, cs ++ (parseList ns []).2) :=
  (frame_all (sizeOf ns)).2.2 ns le_rfl cs

/- ## Region flattening support -/

/-- Every node of the list is a `contour` node. -/
def allContour : NodeList → Bool
  | .nil => true
  | .cons c rest => (c.rule == Rule.contour) && allContour rest

/-- The concatenation of the children of all nodes of the list (the
operations inside the contour bodies, in source order). -/
def bodiesConcat : NodeList → NodeList
  | .nil => .nil
  | .cons c rest => nlAppend c.children (bodiesConcat rest)

/-- Dispatching a concatenated list runs the first part and, when it
succeeds, continues with the second from the reached state. -/
theorem parseList_append : ∀ (a b : NodeList) (cs : List Command),
    parseList (nlAppend a b) cs =
      (match parseList a cs with
       | (some e, cs2) => (some e, cs2)
       | (none, cs2) => parseList b cs2)
  | .nil, b, cs => by simp [nlAppend, parseList]
  | .cons h tl, b, cs => by
    simp only [nlAppend, parseList]
    cases hp : parsePair h cs with
    | mk fst cs2 =>
      cases fst with
      | some e => simp
      | none =>
        dsimp only
        exact parseList_append tl b cs2

/-- The region loop over `contours ++ [endNode]` — all of `contours` of
rule `contour`, the end node not — equals dispatching the concatenated
contour bodies. -/
theorem regionLoop_eq : ∀ (contours : NodeList) (endN : Node) (cs : List Command),
    allContour contours = true → endN.rule ≠ Rule.contour →
    regionLoop (nlAppend contours (.cons endN .nil)) cs
      = parseList (bodiesConcat contours) cs
  | .nil, endN, cs, _, hend => by
    simp only [nlAppend, bodiesConcat, parseList]
    obtain ⟨er, et, ech⟩ := endN
    simp only [Node.rule] at hend
    cases er <;> first | (exact absurd rfl hend) | simp [regionLoop]
  | .cons c crest, endN, cs, hall, hend => by
    obtain ⟨cr, ct, cch⟩ := c
    have hsplit : cr = Rule.contour ∧ allContour crest = true := by
      simpa [allContour, Node.rule] using hall
    obtain ⟨hcr, hall2⟩ := hsplit
    subst hcr
    simp only [bodiesConcat, Node.children]
    rw [parseList_append cch (bodiesConcat crest) cs]
    simp only [nlAppend, regionLoop]
    cases hp : parseList cch cs with
    | mk fst cs2 =>
      cases fst with
      | some e => simp
      | none =>
        dsimp only
        cases crest with
        | nil =>
          simp only [nlAppend, bodiesConcat, parseList]
          obtain ⟨er, et, ech⟩ := endN
          simp only [Node.rule] at hend
          cases er <;> first | (exact absurd rfl hend) | simp [regionLoop]
        | cons ch ctl =>
          simp only [nlAppend]
          have hrec := regionLoop_eq (.cons ch ctl) endN cs2 hall2 hend
          simp only [nlAppend] at hrec
          exact hrec

/- ## Unparsable-token predicates

One predicate per argument shape: true exactly when a token that the
corresponding decoder examines is present but its text fails the numeric
parse the decoder applies to that position. -/

/-- One of the first `k` nodes is present and fails the `f64` parse. -/
def anyRatFailsAmong : Nat → NodeList → Bool
  | 0, _ => false
  | _ + 1, .nil => false
  | k + 1, .cons c rest => (parseRat? c.text).isNone || anyRatFailsAmong k rest

/-- One of the first `k` nodes is present and fails the `u8` parse. -/
def anyU8FailsAmong : Nat → NodeList → Bool
  | 0, _ => false
  | _ + 1, .nil => false
  | k + 1, .cons c rest => (rustParseU8? c.text).isNone || anyU8FailsAmong k rest

/-- Some node of the list fails the `f64` parse. -/
def anyRatFails : NodeList → Bool
  | .nil => false
  | .cons c rest => (parseRat? c.text).isNone || anyRatFails rest

/-- A present polygon-template parameter fails its parse (`f64` for outer
diameter, rotation and hole; `u32` for the vertex count). -/
def polygonParamFails : NodeList → Bool
  | .nil => false
  | .cons oN rest =>
    (parseRat? oN.text).isNone ||
    (match rest with
     | .nil => false
     | .cons vN rest2 =>
       (rustParseU32? vN.text).isNone ||
       (match rest2 with
        | .nil => false
        | .cons rN rest3 =>
          (parseRat? rN.text).isNone ||
          (match rest3 with
           | .nil => false
           | .cons hN _ => (parseRat? hN.text).isNone)))

/-- A D01 argument node carries a present coordinate/offset token that
fails the `i32` parse (in a position the D01 loop examines). -/
def coordFails (np : Node) : Bool :=
  match np.children with
  | .nil => false
  | .cons c rest =>
    match np.rule with
    | .x_coord => (rustParseI32? c.text).isNone
    | .y_coord => (rustParseI32? c.text).isNone
    | .ij_coords =>
      (rustParseI32? c.text).isNone ||
      (match rest with
       | .nil => false
       | .cons j _ => (rustParseI32? j.text).isNone)
    | _ => false

def anyCoordFails : NodeList → Bool
  | .nil => false
  | .cons np rest => coordFails np || anyCoordFails rest

/-- A D02/D03 argument node carries a present coordinate token that fails
the `i32` parse (only `x_coord`/`y_coord` are examined there). -/
def xyFails (np : Node) : Bool :=
  match np.children with
  | .nil => false
  | .cons c _ =>
    match np.rule with
    | .x_coord => (rustParseI32? c.text).isNone
    | .y_coord => (rustParseI32? c.text).isNone
    | _ => false

def anyXYFails : NodeList → Bool
  | .nil => false
  | .cons np rest => xyFails np || anyXYFails rest

/- ## Unparsable-token lemmas: each decoder fails on such a token -/

theorem circleTemplateDecode_fails (body : NodeList)
    (h : anyRatFailsAmong 2 body = true) :
    ∀ tpl, circleTemplateDecode body ≠ .ok tpl := by
  intro tpl
  cases body with
  | nil => simp [anyRatFailsAmong] at h
  | cons dN rest =>
    cases hd : parseRat? dN.text with
    | none => simp [circleTemplateDecode, hd]
    | some vd =>
      cases rest with
      | nil => simp [anyRatFailsAmong, hd] at h
      | cons hN r2 =>
        cases hh : parseRat? hN.text with
        | none => simp [circleTemplateDecode, hd, hh]
        | some vh => simp [anyRatFailsAmong, hd, hh] at h

theorem rectLikeDecode_fails (mkf : Rat → Rat → Option Rat → ApertureTemplate)
    (body : NodeList) (h : anyRatFailsAmong 3 body = true) :
    ∀ tpl, rectLikeDecode mkf body ≠ .ok tpl := by
  intro tpl
  cases body with
  | nil => simp [anyRatFailsAmong] at h
  | cons xN rest =>
    cases hx : parseRat? xN.text with
    | none => simp [rectLikeDecode, hx]
    | some vx =>
      cases rest with
      | nil => simp [anyRatFailsAmong, hx] at h
      | cons yN rest2 =>
        cases hy : parseRat? yN.text with
        | none => simp [rectLikeDecode, hx, hy]
        | some vy =>
          cases rest2 with
          | nil => simp [anyRatFailsAmong, hx, hy] at h
          | cons hN r3 =>
            cases hh : parseRat? hN.text with
            | none => simp [rectLikeDecode, hx, hy, hh]
            | some vh => simp [anyRatFailsAmong, hx, hy, hh] at h

theorem polygonTemplateDecode_fails (body : NodeList)
    (h : polygonParamFails body = true) :
    ∀ tpl, polygonTemplateDecode body ≠ .ok tpl := by
  intro tpl
  cases body with
  | nil => simp [polygonParamFails] at h
  | cons oN rest =>
    cases ho : parseRat? oN.text with
    | none => simp [polygonTemplateDecode, ho]
    | some vo =>
      cases rest with
      | nil => simp [polygonParamFails, ho] at h
      | cons vN rest2 =>
        cases hv : rustParseU32? vN.text with
        | none => simp [polygonTemplateDecode, ho, hv]
        | some vv =>
          cases rest2 with
          | nil => simp [polygonParamFails, ho, hv] at h
          | cons rN rest3 =>
            cases hr : parseRat? rN.text with
            | none => simp [polygonTemplateDecode, ho, hv, hr]
            | some vr =>
              cases rest3 with
              | nil => simp [polygonParamFails, ho, hv, hr] at h
              | cons hN r4 =>
                cases hh : parseRat? hN.text with
                | none => simp [polygonTemplateDecode, ho, hv, hr, hh]
                | some vh => simp [polygonParamFails, ho, hv, hr, hh] at h

theorem nameTemplateParams_fails : ∀ ps : NodeList, anyRatFails ps = true →
    ∀ vs, nameTemplateParams ps ≠ .ok vs
  | .nil, h => absurd h (by simp [anyRatFails])
  | .cons pN rest, h => by
    intro vs
    cases hp : parseRat? pN.text with
    | none => simp [nameTemplateParams, hp]
    | some v =>
      have h2 : anyRatFails rest = true := by
        simpa [anyRatFails, hp] using h
      cases hr : nameTemplateParams rest with
      | error e => simp [nameTemplateParams, hp, hr]
      | ok ps2 => exact absurd hr (nameTemplateParams_fails rest h2 ps2)

theorem fsDecode_fails (a b c d : Node) (rest : NodeList)
    (h : rustParseU8? a.text = none ∨ rustParseU8? b.text = none
       ∨ rustParseU8? c.text = none ∨ rustParseU8? d.text = none) :
    ∀ cmd, fsDecode (.cons a (.cons b (.cons c (.cons d rest)))) ≠ .ok cmd := by
  intro cmd
  cases ha : rustParseU8? a.text with
  | none => simp [fsDecode, ha]
  | some va =>
    cases hb : rustParseU8? b.text with
    | none => simp [fsDecode, ha, hb]
    | some vb =>
      cases hc : rustParseU8? c.text with
      | none => simp [fsDecode, ha, hb, hc]
      | some vc =>
        cases hd : rustParseU8? d.text with
        | none => simp [fsDecode, ha, hb, hc, hd]
        | some vd => simp [ha, hb, hc, hd] at h

theorem d01Loop_fails : ∀ (ns : NodeList) (op : D01Operation),
    anyCoordFails ns = true → ∀ o, d01Loop ns op ≠ .ok o
  | .nil, _, h => absurd h (by simp [anyCoordFails])
  | .cons np rest, op, h => by
    intro o
    obtain ⟨nr, nt, nch⟩ := np
    cases nch with
    | nil =>
      have h2 : anyCoordFails rest = true := by
        simpa [anyCoordFails, coordFails, Node.children] using h
      simpa [d01Loop, Node.children] using d01Loop_fails rest op h2 o
    | cons coordN jrest =>
      cases nr
      case x_coord =>
        cases hp : rustParseI32? coordN.text with
        | none => simp [d01Loop, Node.children, Node.rule, hp]
        | some v =>
          have h2 : anyCoordFails rest = true := by
            simpa [anyCoordFails, coordFails, Node.children, Node.rule, hp] using h
          simpa [d01Loop, Node.children, Node.rule, hp] using
            d01Loop_fails rest { op with x := some v } h2 o
      case y_coord =>
        cases hp : rustParseI32? coordN.text with
        | none => simp [d01Loop, Node.children, Node.rule, hp]
        | some v =>
          have h2 : anyCoordFails rest = true := by
            simpa [anyCoordFails, coordFails, Node.children, Node.rule, hp] using h
          simpa [d01Loop, Node.children, Node.rule, hp] using
            d01Loop_fails rest { op with y := some v } h2 o
      case ij_coords =>
        cases hp : rustParseI32? coordN.text with
        | none => simp [d01Loop, Node.children, Node.rule, hp]
        | some vi =>
          cases jrest with
          | nil => simp [d01Loop, Node.children, Node.rule, hp]
          | cons jN jr2 =>
            cases hj : rustParseI32? jN.text with
            | none => simp [d01Loop, Node.children, Node.rule, hp, hj]
            | some vj =>
              have h2 : anyCoordFails rest = true := by
                simpa [anyCoordFails, coordFails, Node.children, Node.rule, hp, hj] using h
              simpa [d01Loop, Node.children, Node.rule, hp, hj] using
                d01Loop_fails rest { op with i := some vi, j := some vj } h2 o
      all_goals
        (have h2 : anyCoordFails rest = true := by
          simpa [anyCoordFails, coordFails, Node.children, Node.rule] using h)
      all_goals
        simpa [d01Loop, Node.children, Node.rule] using d01Loop_fails rest op h2 o

theorem xyLoop_fails : ∀ (ns : NodeList) (op : D02Operation),
    anyXYFails ns = true → ∀ o, xyLoop ns op ≠ .ok o
  | .nil, _, h => absurd h (by simp [anyXYFails])
  | .cons np rest, op, h => by
    intro o
    obtain ⟨nr, nt, nch⟩ := np
    cases nch with
    | nil =>
      have h2 : anyXYFails rest = true := by
        simpa [anyXYFails, xyFails, Node.children] using h
      simpa [xyLoop, Node.children] using xyLoop_fails rest op h2 o
    | cons coordN jrest =>
      cases nr
      case x_coord =>
        cases hp : rustParseI32? coordN.text with
        | none => simp [xyLoop, Node.children, Node.rule, hp]
        | some v =>
          have h2 : anyXYFails rest = true := by
            simpa [anyXYFails, xyFails, Node.children, Node.rule, hp] using h
          simpa [xyLoop, Node.children, Node.rule, hp] using
            xyLoop_fails rest { op with x := some v } h2 o
      case y_coord =>
        cases hp : rustParseI32? coordN.text with
        | none => simp [xyLoop, Node.children, Node.rule, hp]
        | some v =>
          have h2 : anyXYFails rest = true := by
            simpa [anyXYFails, xyFails, Node.children, Node.rule, hp] using h
          simpa [xyLoop, Node.children, Node.rule, hp] using
            xyLoop_fails rest { op with y := some v } h2 o
      all_goals
        (have h2 : anyXYFails rest = true := by
          simpa [anyXYFails, xyFails, Node.children, Node.rule] using h)
      all_goals
        simpa [xyLoop, Node.children, Node.rule] using xyLoop_fails rest op h2 o

/- ## Claim theorems -/

/-- C1 (counterexample): inside an aperture-macro primitive body a
numeric-parse failure does NOT surface as an error: the text `abc` fails
to parse as a number, yet the whole parse succeeds and the circle
primitive's diameter silently becomes the default `0.0` — refuting the
claim that every numeric-parse failure inside aperture-macro primitive
bodies surfaces as a descriptive error value. -/
theorem c1_macro_default_counterexample :
    parseRat? "abc" = none ∧
    gerberNew (some (.mk .other "" (nl [.mk .am ""
        (nl [tk "MYMACRO",
             .mk .primitive_circle "" (nl [tk "1", tk "abc", tk "0", tk "0"])])])))
      = .ok [.AM "MYMACRO" [.Circle true 0 0 0 none]] :=
  ⟨rfl, rfl⟩

/-- C1 (amended): parsing returns exactly one of a complete command
sequence or a single descriptive error, and no partial output is ever
returned alongside an error.  In top-level command decoding, a present
numeric token that fails its parse in a position the decoder examines —
FS digit counts, AD aperture code and standard-template or macro-reference
parameters, Dnn code, D01/D02/D03 coordinates and offsets, LR angle, LS
factor — surfaces as a descriptive error, and so do the decoders'
missing-argument checks (missing comment, unit, FS tokens, aperture code
or template, Dnn code, polarity, mirroring, rotation, scaling, TF
attribute name, and a D01 i-offset without a j-offset).  But not every
absent argument is checked: absent trailing template parameters —
including the circle template's mandatory diameter — default silently.
Inside aperture-macro primitive bodies, numeric-parse and
missing-argument failures never surface: they are replaced by the
defaults `false`/`0`/`0.0`, and decoding an aperture-macro statement
never fails. -/
theorem c1_failure_semantics :
    (∀ root?, (∃ cs, gerberNew root? = .ok cs) ∨ ∃ e, gerberNew root? = .error e)
    ∧ ((∀ (t : String) (cs : List Command) (a b c d : Node) (rest : NodeList),
        (rustParseU8? a.text = none ∨ rustParseU8? b.text = none
          ∨ rustParseU8? c.text = none ∨ rustParseU8? d.text = none) →
        (parsePair (.mk .fs t (.cons a (.cons b (.cons c (.cons d rest))))) cs).1 ≠ none)
      ∧ (∀ (t : String) (cs : List Command) (apN : Node) (rest : NodeList),
        rustParseU32? (trimLeadingD apN.text) = none →
        (parsePair (.mk .ad t (.cons apN rest)) cs).1 ≠ none)
      ∧ (∀ (t tt : String) (cs : List Command) (apN : Node) (r body : NodeList),
        anyRatFailsAmong 2 body = true →
        (parsePair (.mk .ad t (.cons apN (.cons (.mk .template_circle tt body) r))) cs).1
          ≠ none)
      ∧ (∀ (t tt : String) (cs : List Command) (apN : Node) (r body : NodeList)
          (tag : Rule),
        (tag = .template_rectangle ∨ tag = .template_obround) →
        anyRatFailsAmong 3 body = true →
        (parsePair (.mk .ad t (.cons apN (.cons (.mk tag tt body) r))) cs).1 ≠ none)
      ∧ (∀ (t tt : String) (cs : List Command) (apN : Node) (r body : NodeList),
        polygonParamFails body = true →
        (parsePair (.mk .ad t (.cons apN (.cons (.mk .template_polygon tt body) r))) cs).1
          ≠ none)
      ∧ (∀ (t tt : String) (cs : List Command) (apN nameN : Node) (r params : NodeList),
        anyRatFails params = true →
        (parsePair (.mk .ad t
            (.cons apN (.cons (.mk .template_name tt (.cons nameN params)) r))) cs).1
          ≠ none)
      ∧ (∀ (t : String) (cs : List Command) (apN : Node) (rest : NodeList),
        rustParseU32? (trimLeadingD apN.text) = none →
        (parsePair (.mk .dnn t (.cons apN rest)) cs).1 ≠ none)
      ∧ (∀ (t : String) (cs : List Command) (ch : NodeList),
        anyCoordFails ch = true → (parsePair (.mk .d01 t ch) cs).1 ≠ none)
      ∧ (∀ (t : String) (cs : List Command) (ch : NodeList),
        anyXYFails ch = true → (parsePair (.mk .d02 t ch) cs).1 ≠ none)
      ∧ (∀ (t : String) (cs : List Command) (ch : NodeList),
        anyXYFails ch = true → (parsePair (.mk .d03 t ch) cs).1 ≠ none)
      ∧ (∀ (t : String) (cs : List Command) (rN : Node) (rest : NodeList),
        parseRat? rN.text = none →
        (parsePair (.mk .lr t (.cons rN rest)) cs).1 ≠ none)
      ∧ (∀ (t : String) (cs : List Command) (sN : Node) (rest : NodeList),
        parseRat? sN.text = none →
        (parsePair (.mk .ls t (.cons sN rest)) cs).1 ≠ none))
    ∧ (∀ (t : String) (cs : List Command),
        (parsePair (.mk .g04 t .nil) cs).1 ≠ none
        ∧ (parsePair (.mk .mo t .nil) cs).1 ≠ none
        ∧ (parsePair (.mk .fs t .nil) cs).1 ≠ none
        ∧ (parsePair (.mk .ad t .nil) cs).1 ≠ none
        ∧ (∀ apN : Node, (parsePair (.mk .ad t (.cons apN .nil)) cs).1 ≠ none)
        ∧ (parsePair (.mk .dnn t .nil) cs).1 ≠ none
        ∧ (parsePair (.mk .lp t .nil) cs).1 ≠ none
        ∧ (parsePair (.mk .lm t .nil) cs).1 ≠ none
        ∧ (parsePair (.mk .lr t .nil) cs).1 ≠ none
        ∧ (parsePair (.mk .ls t .nil) cs).1 ≠ none
        ∧ (parsePair (.mk .tf t .nil) cs).1 ≠ none
        ∧ (∀ (t2 : String) (iN : Node),
            (parsePair (.mk .d01 t
                (.cons (.mk .ij_coords t2 (.cons iN .nil)) .nil)) cs).1 ≠ none))
    ∧ (∀ (t tt : String) (cs : List Command) (apN : Node) (code : Nat),
        rustParseU32? (trimLeadingD apN.text) = some code →
        parsePair (.mk .ad t (.cons apN (.cons (.mk .template_circle tt .nil) .nil))) cs
          = (none, cs ++ [.AD ⟨code, .Circle 0 none⟩]))
    ∧ ((∀ (t : String) (ch : NodeList) (cs : List Command),
        (parsePair (.mk .am t ch) cs).1 = none)
      ∧ (∀ p : Node, parseRat? p.text = none → parse_f64_value p = 0)
      ∧ (∀ p : Node, rustParseI32? p.text = none → parse_bool (some p) = false)
      ∧ (∀ p : Node, rustParseU32? p.text = none → parse_u32 (some p) = 0)
      ∧ parse_f64 none = 0 ∧ parse_bool none = false ∧ parse_u32 none = 0) := by
  refine ⟨?_, ⟨?_, ?_, ?_, ?_, ?_, ?_, ?_, ?_, ?_, ?_, ?_, ?_⟩, ?_, ?_,
    ?_, ?_, ?_, ?_, rfl, rfl, rfl⟩
  · intro root?
    cases root? with
    | none => exact .inr ⟨_, rfl⟩
    | some root =>
      cases h : parseList root.children [] with
      | mk fst cs =>
        cases fst with
        | some e => exact .inr ⟨e, by simp [gerberNew, h]⟩
        | none => exact .inl ⟨cs, by simp [gerberNew, h]⟩
  · intro t cs a b c d rest h
    cases hf : fsDecode (.cons a (.cons b (.cons c (.cons d rest)))) with
    | error e => simp [parsePair, pushResult, hf]
    | ok cmd => exact absurd hf (fsDecode_fails a b c d rest h cmd)
  · intro t cs apN rest h
    simp [parsePair, pushResult, adDecode, h]
  · intro t tt cs apN r body h
    cases hcode : rustParseU32? (trimLeadingD apN.text) with
    | none => simp [parsePair, pushResult, adDecode, hcode]
    | some code =>
      cases hc : circleTemplateDecode body with
      | error e =>
        simp [parsePair, pushResult, adDecode, hcode, Node.rule, Node.children, hc]
      | ok tpl => exact absurd hc (circleTemplateDecode_fails body h tpl)
  · intro t tt cs apN r body tag htag h
    cases hcode : rustParseU32? (trimLeadingD apN.text) with
    | none => simp [parsePair, pushResult, adDecode, hcode]
    | some code =>
      rcases htag with rfl | rfl
      · cases hc : rectLikeDecode .Rectangle body with
        | error e =>
          simp [parsePair, pushResult, adDecode, hcode, Node.rule, Node.children, hc]
        | ok tpl => exact absurd hc (rectLikeDecode_fails .Rectangle body h tpl)
      · cases hc : rectLikeDecode .Obround body with
        | error e =>
          simp [parsePair, pushResult, adDecode, hcode, Node.rule, Node.children, hc]
        | ok tpl => exact absurd hc (rectLikeDecode_fails .Obround body h tpl)
  · intro t tt cs apN r body h
    cases hcode : rustParseU32? (trimLeadingD apN.text) with
    | none => simp [parsePair, pushResult, adDecode, hcode]
    | some code =>
      cases hc : polygonTemplateDecode body with
      | error e =>
        simp [parsePair, pushResult, adDecode, hcode, Node.rule, Node.children, hc]
      | ok tpl => exact absurd hc (polygonTemplateDecode_fails body h tpl)
  · intro t tt cs apN nameN r params h
    cases hcode : rustParseU32? (trimLeadingD apN.text) with
    | none => simp [parsePair, pushResult, adDecode, hcode]
    | some code =>
      cases hc : nameTemplateParams params with
      | error e =>
        simp [parsePair, pushResult, adDecode, nameTemplateDecode, hcode,
          Node.rule, Node.children, hc]
      | ok vs => exact absurd hc (nameTemplateParams_fails params h vs)
  · intro t cs apN rest h
    simp [parsePair, pushResult, dnnDecode, h]
  · intro t cs ch h
    cases hl : d01Loop ch ⟨none, none, none, none⟩ with
    | error e => simp [parsePair, pushResult, d01Decode, hl]
    | ok o => exact absurd hl (d01Loop_fails ch ⟨none, none, none, none⟩ h o)
  · intro t cs ch h
    cases hl : xyLoop ch ⟨none, none⟩ with
    | error e => simp [parsePair, pushResult, d02Decode, hl]
    | ok o => exact absurd hl (xyLoop_fails ch ⟨none, none⟩ h o)
  · intro t cs ch h
    cases hl : xyLoop ch ⟨none, none⟩ with
    | error e => simp [parsePair, pushResult, d03Decode, hl]
    | ok o => exact absurd hl (xyLoop_fails ch ⟨none, none⟩ h o)
  · intro t cs rN rest h
    simp [parsePair, pushResult, lrDecode, h]
  · intro t cs sN rest h
    simp [parsePair, pushResult, lsDecode, h]
  · intro t cs
    refine ⟨by simp [parsePair, pushResult, g04Decode],
      by simp [parsePair, pushResult, moDecode],
      by simp [parsePair, pushResult, fsDecode],
      by simp [parsePair, pushResult, adDecode],
      ?_,
      by simp [parsePair, pushResult, dnnDecode],
      by simp [parsePair, pushResult, lpDecode],
      by simp [parsePair, pushResult, lmDecode],
      by simp [parsePair, pushResult, lrDecode],
      by simp [parsePair, pushResult, lsDecode],
      by simp [parsePair, pushResult, tfDecode],
      ?_⟩
    · intro apN
      cases hcode : rustParseU32? (trimLeadingD apN.text) with
      | none => simp [parsePair, pushResult, adDecode, hcode]
      | some code => simp [parsePair, pushResult, adDecode, hcode]
    · intro t2 iN
      cases hi : rustParseI32? iN.text with
      | none =>
        simp [parsePair, pushResult, d01Decode, d01Loop, Node.children, Node.rule, hi]
      | some vi =>
        simp [parsePair, pushResult, d01Decode, d01Loop, Node.children, Node.rule, hi]
  · intro t tt cs apN code h
    simp [parsePair, pushResult, adDecode, circleTemplateDecode,
      Node.rule, Node.children, h]
  · intro t ch cs
    rfl
  · intro p h
    simp [parse_f64_value, h]
  · intro p h
    simp [parse_bool, h]
  · intro p h
    simp [parse_u32, h]

/-- C1 (witness): concrete failing tokens — `xx` as an FS digit count, `9z`
as a D01 x-coordinate and `abc` inside a macro-primitive body — and the
concrete silently-defaulting circle template without a diameter. -/
theorem c1_failure_semantics_witness :
    rustParseU8? (tk "xx").text = none
    ∧ (parsePair (.mk .fs ""
        (.cons (tk "2") (.cons (tk "xx") (.cons (tk "2") (.cons (tk "6") .nil))))) []).1
      ≠ none
    ∧ anyCoordFails (.cons (.mk .x_coord "" (.cons (tk "9z") .nil)) .nil) = true
    ∧ (parsePair (.mk .d01 ""
        (.cons (.mk .x_coord "" (.cons (tk "9z") .nil)) .nil)) []).1 ≠ none
    ∧ rustParseU32? (trimLeadingD (tk "D10").text) = some 10
    ∧ parsePair (.mk .ad ""
        (.cons (tk "D10") (.cons (.mk .template_circle "" .nil) .nil))) []
      = (none, [.AD ⟨10, .Circle 0 none⟩])
    ∧ parseRat? (tk "abc").text = none
    ∧ parse_f64_value (tk "abc") = 0 := by
  refine ⟨rfl, ?_, rfl, ?_, rfl, ?_, rfl, ?_⟩
  · exact c1_failure_semantics.2.1.1 "" [] (tk "2") (tk "xx") (tk "2") (tk "6") .nil
      (Or.inr (Or.inl rfl))
  · exact c1_failure_semantics.2.1.2.2.2.2.2.2.2.1 "" []
      (.cons (.mk .x_coord "" (.cons (tk "9z") .nil)) .nil) rfl
  · exact c1_failure_semantics.2.2.2.1 "" "" [] (tk "D10") 10 rfl
  · exact c1_failure_semantics.2.2.2.2.2.1 (tk "abc") rfl

/-- The syntax tree of the two-square sample (`tests/two_square_boxes.gbr`),
as produced by the grammar engine: a leading comment, millimeter units,
format 2/6 for both axes, a file attribute, dark polarity, a circular
aperture of diameter 0.010 at code 10, a select, a move to the origin,
linear mode, four draws, a move, four more draws, end-of-file — with only
the axes literally present in the source text appearing as children. -/
def twoSquareRoot : Node :=
  .mk .other "" (nl [
    .mk .g04 "" (nl [tk "Ucamco ex. 1: Two square boxes"]),
    .mk .mo "" (nl [tk "MM"]),
    .mk .fs "" (nl [tk "2", tk "6", tk "2", tk "6"]),
    .mk .tf "" (nl [tk ".Part", tk "Other", tk "example"]),
    .mk .lp "" (nl [tk "D"]),
    .mk .ad "" (nl [tk "D10", .mk .template_circle "" (nl [tk "0.010"])]),
    .mk .dnn "" (nl [tk "D10"]),
    .mk .d02 "" (nl [.mk .x_coord "" (nl [tk "0"]), .mk .y_coord "" (nl [tk "0"])]),
    .mk .g01 "" .nil,
    .mk .d01 "" (nl [.mk .x_coord "" (nl [tk "5000000"]), .mk .y_coord "" (nl [tk "0"])]),
    .mk .d01 "" (nl [.mk .y_coord "" (nl [tk "5000000"])]),
    .mk .d01 "" (nl [.mk .x_coord "" (nl [tk "0"])]),
    .mk .d01 "" (nl [.mk .y_coord "" (nl [tk "0"])]),
    .mk .d02 "" (nl [.mk .x_coord "" (nl [tk "6000000"]), .mk .y_coord "" (nl [tk "0"])]),
    .mk .d01 "" (nl [.mk .x_coord "" (nl [tk "11000000"]), .mk .y_coord "" (nl [tk "0"])]),
    .mk .d01 "" (nl [.mk .y_coord "" (nl [tk "5000000"])]),
    .mk .d01 "" (nl [.mk .x_coord "" (nl [tk "6000000"])]),
    .mk .d01 "" (nl [.mk .y_coord "" (nl [tk "0"])]),
    .mk .m02 "" .nil])

/-- The 19 expected command values for the two-square sample, in literal
order, with `some` exactly on the axes present in the source text. -/
def twoSquareCommands : List Command := [
  .G04 "Ucamco ex. 1: Two square boxes",
  .MO .Millimeters,
  .FS ⟨2, 6, 2, 6⟩,
  .TF ".Part" ["Other", "example"],
  .LP .Dark,
  .AD ⟨10, .Circle (mkRat 1 100) none⟩,
  .Dnn 10,
  .D02 ⟨some 0, some 0⟩,
  .G01,
  .D01 ⟨some 5000000, some 0, none, none⟩,
  .D01 ⟨none, some 5000000, none, none⟩,
  .D01 ⟨some 0, none, none, none⟩,
  .D01 ⟨none, some 0, none, none⟩,
  .D02 ⟨some 6000000, some 0⟩,
  .D01 ⟨some 11000000, some 0, none, none⟩,
  .D01 ⟨none, some 5000000, none, none⟩,
  .D01 ⟨some 6000000, none, none, none⟩,
  .D01 ⟨none, some 0, none, none⟩,
  .M02]

/-- C2: the two-square sample parses to exactly these 19 command values in
literal order; every draw/move operation carries `some` for exactly the
axes present in the source and `none` for every omitted axis. -/
theorem c2_two_square_sample :
    gerberNew (some twoSquareRoot) = .ok twoSquareCommands
    ∧ twoSquareCommands.length = 19 :=
  ⟨rfl, rfl⟩

/-- C3: in a D01 operation, an `ij_coords` argument whose i-offset parses
but which has no j child fails with the "Missing J parameter." error;
with both children present and parsing, the decoded operation carries
both offsets — for every incoming partial operation state. -/
theorem c3_d01_ij (op : D01Operation) (t : String) (iN : Node) (vi : Int)
    (hi : rustParseI32? iN.text = some vi) :
    d01Loop (.cons (.mk .ij_coords t (.cons iN .nil)) .nil) op
      = .error (.SemanticError "Missing J parameter.")
    ∧ ∀ (jN : Node) (vj : Int), rustParseI32? jN.text = some vj →
      d01Loop (.cons (.mk .ij_coords t (.cons iN (.cons jN .nil))) .nil) op
        = .ok { op with i := some vi, j := some vj } := by
  obtain ⟨ir, it, ich⟩ := iN
  simp only [Node.text] at hi
  constructor
  · simp [d01Loop, Node.children, Node.rule, Node.text, hi]
  · intro jN vj hj
    obtain ⟨jr, jt, jch⟩ := jN
    simp only [Node.text] at hj
    simp [d01Loop, Node.children, Node.rule, Node.text, hi, hj]

/-- C3 (witness): concrete i-offset `7` without j fails with the missing-J
error; `7` with j-offset `-3` populates both fields. -/
theorem c3_d01_ij_witness :
    rustParseI32? (tk "7").text = some 7
    ∧ (d01Loop (.cons (.mk .ij_coords "" (.cons (tk "7") .nil)) .nil)
        ⟨none, none, none, none⟩ = .error (.SemanticError "Missing J parameter."))
    ∧ rustParseI32? (tk "-3").text = some (-3)
    ∧ (d01Loop (.cons (.mk .ij_coords "" (.cons (tk "7") (.cons (tk "-3") .nil))) .nil)
        ⟨none, none, none, none⟩ = .ok ⟨none, none, some 7, some (-3)⟩) := by
  refine ⟨rfl, ?_, rfl, ?_⟩
  · exact (c3_d01_ij ⟨none, none, none, none⟩ "" (tk "7") 7 rfl).1
  · exact (c3_d01_ij ⟨none, none, none, none⟩ "" (tk "7") 7 rfl).2 (tk "-3") (-3) rfl

/-- C4: a region statement whose children are the begin token, one or more
contour nodes, and a non-contour end token emits exactly one `G36`, then
every operation of every contour body in source order (dispatched by the
same per-kind rules), then — when no contour operation failed — exactly
one `G37`. -/
theorem c4_region_flattens (t : String) (c0 endN : Node) (contours : NodeList)
    (cs : List Command)
    (hne : contours ≠ .nil) (hall : allContour contours = true)
    (hend : endN.rule ≠ Rule.contour) :
    parsePair (.mk .region_statement t
        (.cons c0 (nlAppend contours (.cons endN .nil)))) cs
      = ((parseList (bodiesConcat contours) []).1,
         cs ++ [Command.G36] ++ (parseList (bodiesConcat contours) []).2
            ++ (if (parseList (bodiesConcat contours) []).1 = none
                then [Command.G37] else [])) := by
  cases contours with
  | nil => exact absurd rfl hne
  | cons c crest =>
    simp only [nlAppend, parsePair]
    have hr : regionLoop (.cons c (nlAppend crest (.cons endN .nil)))
        (cs ++ [Command.G36])
        = parseList (bodiesConcat (.cons c crest)) (cs ++ [Command.G36]) := by
      have := regionLoop_eq (.cons c crest) endN (cs ++ [Command.G36]) hall hend
      simpa [nlAppend] using this
    rw [hr, parseList_frame (bodiesConcat (.cons c crest)) (cs ++ [Command.G36])]
    cases hc : (parseList (bodiesConcat (.cons c crest)) []).1 with
    | some e => simp
    | none => simp

/-- The two contour bodies of the C4 witness: one holding a move to the
origin, one holding a draw. -/
def c4SampleContours : NodeList :=
  nl [Node.mk .contour "" (nl [.mk .d02 "" (nl [.mk .x_coord "" (nl [tk "0"]),
          .mk .y_coord "" (nl [tk "0"])])]),
      Node.mk .contour "" (nl [.mk .d01 "" (nl [.mk .x_coord "" (nl [tk "5"])])])]

/-- C4 (witness): a region with two contour bodies — one holding a move,
one holding a draw — decodes to begin marker, the move, the draw, end
marker. -/
theorem c4_region_flattens_witness :
    c4SampleContours ≠ .nil
    ∧ allContour c4SampleContours = true
    ∧ (Node.mk .g37 "" .nil).rule ≠ Rule.contour
    ∧ parsePair (.mk .region_statement ""
        (.cons (.mk .g36 "" .nil)
          (nlAppend c4SampleContours (.cons (.mk .g37 "" .nil) .nil)))) []
      = (none, [Command.G36, .D02 ⟨some 0, some 0⟩,
                .D01 ⟨some 5, none, none, none⟩, .G37]) := by
  refine ⟨fun h => NodeList.noConfusion h, rfl, by decide, ?_⟩
  rw [c4_region_flattens "" (.mk .g36 "" .nil) (.mk .g37 "" .nil) c4SampleContours []
    (fun h => NodeList.noConfusion h) rfl (by decide)]
  rfl

/-- C5 (counterexample): an aperture-attribute (TA) statement carrying a
name and a value decodes to NO command at all — the dispatch ignores it —
refuting the claim that TA/TO/TD decode to attribute command values the
way TF does. -/
theorem c5_ta_ignored_counterexample :
    parsePair (.mk .ta "" (nl [tk ".AperFunction", tk "ComponentPad"])) [] = (none, [])
    ∧ ([] : List Command) ≠ [.TA ".AperFunction" ["ComponentPad"]] :=
  ⟨rfl, by decide⟩

/-- C5 (amended): only file attributes (TF) are decoded into a command
carrying the attribute name and its values in order; aperture-attribute
(TA), object-attribute (TO) and attribute-delete (TD) statements are
recognized but ignored: they produce no command and no error. -/
theorem c5_attr_dispatch (t : String) (ch : NodeList) (cs : List Command)
    (nameN : Node) (rest : NodeList) :
    parsePair (.mk .ta t ch) cs = (none, cs)
    ∧ parsePair (.mk .to t ch) cs = (none, cs)
    ∧ parsePair (.mk .td t ch) cs = (none, cs)
    ∧ parsePair (.mk .tf t (.cons nameN rest)) cs
        = (none, cs ++ [.TF nameN.text (nodeTexts rest)]) :=
  ⟨rfl, rfl, rfl, rfl⟩

/-- C6 (code bug): an outline primitive body with exposure `1`, the two
points `(1,2)` and `(3,4)`, and trailing rotation `5` decodes to an
Outline primitive holding ONLY `[(1,2)]` — the final coordinate pair is
consumed by the lookahead and discarded — and an outline body with the
single point `(1,2)` and rotation `45` loses its rotation (decoded as
`0`), because the loop consumes the rotation token while testing for a
further pair.  The claim (and the spec's outline contract) requires all
`n` points and the trailing rotation. -/
theorem c6_outline_drops_last_pair :
    parsePair (.mk .am "" (nl [tk "OUT",
        .mk .primitive_outline ""
          (nl [tk "1", tk "1", tk "2", tk "3", tk "4", tk "5"])])) []
      = (none, [.AM "OUT" [.Outline true [(1, 2)] 5]])
    ∧ [((1 : Rat), (2 : Rat))] ≠ [(1, 2), (3, 4)]
    ∧ parsePair (.mk .am "" (nl [tk "OUT",
        .mk .primitive_outline "" (nl [tk "1", tk "1", tk "2", tk "45"])])) []
      = (none, [.AM "OUT" [.Outline true [(1, 2)] 0]])
    ∧ (0 : Rat) ≠ 45 :=
  ⟨by decide, by decide, by decide, by decide⟩

/-- C7: when the grammar engine produces no root node — per the spec the
outcome for an empty input — parsing fails with the "Empty Gerber file."
error and never returns a successful (empty) command sequence. -/
theorem c7_empty_input :
    gerberNew none = .error (.SemanticError "Empty Gerber file.")
    ∧ ∀ cs, gerberNew none ≠ .ok cs :=
  ⟨rfl, fun _ h => Except.noConfusion h⟩

/-- C8: a coordinate-format command with the four tokens 2,6,2,6 decodes
to `FormatSpecification 2 6 2 6`; with three tokens or five tokens the
command fails with an error (whatever the token texts are). -/
theorem c8_format_spec (t : String) (cs : List Command) (n1 n2 n3 n4 n5 : Node) :
    parsePair (.mk .fs t (nl [tk "2", tk "6", tk "2", tk "6"])) cs
      = (none, cs ++ [.FS ⟨2, 6, 2, 6⟩])
    ∧ (parsePair (.mk .fs t (nl [n1, n2, n3])) cs).1 ≠ none
    ∧ (parsePair (.mk .fs t (nl [n1, n2, n3, n4, n5])) cs).1 ≠ none := by
  refine ⟨rfl, ?_, ?_⟩
  · simp only [parsePair, nl, List.foldr]
    cases h1 : rustParseU8? n1.text with
    | none => simp [fsDecode, pushResult, h1]
    | some v1 =>
      cases h2 : rustParseU8? n2.text with
      | none => simp [fsDecode, pushResult, h1, h2]
      | some v2 =>
        cases h3 : rustParseU8? n3.text with
        | none => simp [fsDecode, pushResult, h1, h2, h3]
        | some v3 => simp [fsDecode, pushResult, h1, h2, h3]
  · simp only [parsePair, nl, List.foldr]
    cases h1 : rustParseU8? n1.text with
    | none => simp [fsDecode, pushResult, h1]
    | some v1 =>
      cases h2 : rustParseU8? n2.text with
      | none => simp [fsDecode, pushResult, h1, h2]
      | some v2 =>
        cases h3 : rustParseU8? n3.text with
        | none => simp [fsDecode, pushResult, h1, h2, h3]
        | some v3 =>
          cases h4 : rustParseU8? n4.text with
          | none => simp [fsDecode, pushResult, h1, h2, h3, h4]
          | some v4 =>
            cases h5 : rustParseU8? n5.text with
            | none => simp [fsDecode, pushResult, h1, h2, h3, h4, h5]
            | some v5 => simp [fsDecode, pushResult, h1, h2, h3, h4, h5]

/-- C9: a unit command whose token upper-cases to `MM`/`IN` decodes to the
corresponding unit; any other token fails with an error naming the
unrecognized token (before any extra-argument check). -/
theorem c9_unit_tokens (t : String) (u : Node) (rest : NodeList)
    (cs : List Command) :
    (toUpperStr u.text = "MM" →
      parsePair (.mk .mo t (.cons u .nil)) cs = (none, cs ++ [.MO .Millimeters]))
    ∧ (toUpperStr u.text = "IN" →
      parsePair (.mk .mo t (.cons u .nil)) cs = (none, cs ++ [.MO .Inches]))
    ∧ (toUpperStr u.text ≠ "MM" → toUpperStr u.text ≠ "IN" →
      parsePair (.mk .mo t (.cons u rest)) cs
        = (some (.SemanticError ("Unrecognized unit: " ++ u.text)), cs)) := by
  refine ⟨?_, ?_, ?_⟩
  · intro h
    simp [parsePair, moDecode, pushResult, h]
  · intro h
    simp [parsePair, moDecode, pushResult, h]
  · intro h1 h2
    simp [parsePair, moDecode, pushResult, h1, h2]

/-- C9 (witness): the lowercase token `mm` decodes to millimeters, `in`
to inches, and the token `XX` fails with the error naming it. -/
theorem c9_unit_tokens_witness :
    toUpperStr (tk "mm").text = "MM"
    ∧ parsePair (.mk .mo "" (.cons (tk "mm") .nil)) [] = (none, [.MO .Millimeters])
    ∧ toUpperStr (tk "in").text = "IN"
    ∧ parsePair (.mk .mo "" (.cons (tk "in") .nil)) [] = (none, [.MO .Inches])
    ∧ toUpperStr (tk "XX").text ≠ "MM"
    ∧ toUpperStr (tk "XX").text ≠ "IN"
    ∧ parsePair (.mk .mo "" (.cons (tk "XX") .nil)) []
        = (some (.SemanticError ("Unrecognized unit: " ++ (tk "XX").text)), []) := by
  refine ⟨rfl, ?_, rfl, ?_, by decide, by decide, ?_⟩
  · exact (c9_unit_tokens "" (tk "mm") .nil []).1 rfl
  · exact (c9_unit_tokens "" (tk "in") .nil []).2.1 rfl
  · exact (c9_unit_tokens "" (tk "XX") .nil []).2.2 (by decide) (by decide)

/-- C10: for every syntax node and every pre-existing command vector,
`parse_pair` — whether it succeeds or fails — leaves the prior contents as
an unchanged prefix and only appends new commands at the end, the
appended suffix (and the outcome) being independent of the prior
contents. -/
theorem c10_parse_pair_append_only (p : Node) (cs : List Command) :
    parsePair p cs = ((parsePair p []).1, cs ++ (parsePair p []).2) :=
  parsePair_frame p cs

end Gerbers
